import Mathlib

/-!
Verification of the function-call relay core of `src/フロントエンド/pharmacy_agent.js`.

The embedding models:
* the `pendingCalls` assembly table (an associative map from output slot index
  to an in-progress call record),
* the `dataChannel.onmessage` handler's function-calling cases
  (`response.output_item.added` / `response.function_call.created`,
  `response.function_call_arguments.delta`, `response.output_item.done`),
* the `functionCallSocket.onmessage` handler (backend result feedback), and
* `endSession` (session teardown).

Channel sends are modelled by total functions parameterised on the channel's
readiness, following the failure semantics the specification states at the
transport interface boundary (drop plus error report when the channel is not
open); the platform transport objects themselves are not part of the
repository.
-/

namespace PharmacyAgent

/-- One in-flight tool invocation, as stored in `pendingCalls[idx]`:
`{ call_id: item.call_id, name: item.name, arguments: "" }` (the `arguments`
string grows by concatenation as delta events arrive). -/
structure PendingCall where
  call_id : String
  name : String
  arguments : String
deriving DecidableEq, Repr

/-- The `pendingCalls` associative table, keyed by output slot index. -/
def PendingTable : Type := Nat → Option PendingCall

/-- The empty table (`const pendingCalls = {}`). -/
def PendingTable.empty : PendingTable := fun _ => none

/-- The nested `item` object of a realtime event: the fields the handler
reads are `item.type`, `item.call_id` and `item.name`. -/
structure RTItem where
  type : String
  call_id : String
  name : String
deriving DecidableEq, Repr

/-- A decoded data-channel message (`msg`), restricted to the fields the
function-call relay reads: `type`, `output_index` (optional, defaulted to 0),
`item` (optional), `delta`, and — for the legacy `msg.item ?? msg` fallback —
`call_id` and `name` on the message itself. -/
structure DCMessage where
  type : String
  output_index : Option Nat
  item : Option RTItem
  delta : String
  call_id : String
  name : String
deriving DecidableEq, Repr

/-- Modelled from the spec: `functionCallSocket.send` at dispatch time.
The repository delegates the send to the platform WebSocket, which is not
part of the repository; per the specification's dispatcher failure
semantics, when the backend channel is not open the payload is dropped and
an error is reported to the operator-visible log, without raising into the
handler. Returns the delivered payload (if any) and whether an error was
reported. -/
def wsSend (ready : Bool) (call : PendingCall) : Option PendingCall × Bool :=
  if ready then (some call, false) else (none, true)

/-- Result of processing one data-channel message: the updated
`pendingCalls` table, the payload dispatched to the backend channel (the
code sends `JSON.stringify(call)`; we carry the record itself), and whether
a channel error was reported. -/
structure DCEffect where
  table : PendingTable
  dispatched : Option PendingCall
  errorLogged : Bool

/-- No table change, nothing dispatched, no error. -/
def DCEffect.noop (t : PendingTable) : DCEffect :=
  { table := t, dispatched := none, errorLogged := false }

/-- The function-call relay cases of `dataChannel.onmessage`, switching on
`msg.type`. UI-only cases (transcription, `response.done`,
`response.content_part.added`, `output_audio_buffer.stopped`) and the
`default` case do not touch `pendingCalls` and dispatch nothing.
`ready` is the readiness of the backend execution channel at dispatch time. -/
def handleDCMessage (ready : Bool) (msg : DCMessage) (t : PendingTable) : DCEffect :=
  match msg.type with
  | "response.output_item.added"
  | "response.function_call.created" =>
      -- const item = msg.item ?? msg; if (item.type === "function_call") { ... }
      let item := msg.item.getD { type := msg.type, call_id := msg.call_id, name := msg.name }
      if item.type = "function_call" then
        { table := fun i =>
            if i = msg.output_index.getD 0 then
              some { call_id := item.call_id, name := item.name, arguments := "" }
            else t i,
          dispatched := none, errorLogged := false }
      else DCEffect.noop t
  | "response.function_call_arguments.delta" =>
      -- const idx = msg.output_index ?? 0; if (pendingCalls[idx]) { ... += msg.delta }
      let idx := msg.output_index.getD 0
      match t idx with
      | some c =>
          { table := fun i =>
              if i = idx then some { c with arguments := c.arguments ++ msg.delta } else t i,
            dispatched := none, errorLogged := false }
      | none => DCEffect.noop t
  | "response.output_item.done" =>
      -- if (msg.item?.type !== "function_call") break;
      match msg.item with
      | none => DCEffect.noop t
      | some it =>
        if it.type = "function_call" then
          let idx := msg.output_index.getD 0
          match t idx with
          | some call =>
              -- if (call && call.call_id === msg.item.call_id) { send; delete }
              if call.call_id = it.call_id then
                let sent := wsSend ready call
                { table := fun i => if i = idx then none else t i,
                  dispatched := sent.1, errorLogged := sent.2 }
              else DCEffect.noop t
          | none => DCEffect.noop t
        else DCEffect.noop t
  | _ => DCEffect.noop t

/-- A JSON value, for the backend reply's `status`, `result` and `message`
fields (which carry arbitrary JSON). -/
inductive Json where
  | null : Json
  | bool : Bool → Json
  | num : Int → Json
  | str : String → Json
  | arr : List Json → Json
  | obj : List (String × Json) → Json
deriving Repr

/-- Escaping of quote and backslash for string serialization. -/
def escapeJsonString (s : String) : String :=
  String.mk (s.data.foldr (fun c acc =>
    if c = '"' then '\\' :: '"' :: acc
    else if c = '\\' then '\\' :: '\\' :: acc
    else c :: acc) [])

mutual

/-- Model of `JSON.stringify` on the embedded JSON values. -/
def Json.stringify : Json → String
  | Json.null => "null"
  | Json.bool b => cond b "true" "false"
  | Json.num n => toString n
  | Json.str s => "\"" ++ escapeJsonString s ++ "\""
  | Json.arr xs => "[" ++ Json.stringifyArr xs ++ "]"
  | Json.obj fs => "\x7b" ++ Json.stringifyFields fs ++ "\x7d"

/-- Comma-separated serialization of the elements of a JSON array. -/
def Json.stringifyArr : List Json → String
  | [] => ""
  | [x] => Json.stringify x
  | x :: y :: xs => Json.stringify x ++ "," ++ Json.stringifyArr (y :: xs)

/-- Comma-separated serialization of the fields of a JSON object. -/
def Json.stringifyFields : List (String × Json) → String
  | [] => ""
  | [(k, v)] => "\"" ++ escapeJsonString k ++ "\":" ++ Json.stringify v
  | (k, v) :: f :: fs =>
      "\"" ++ escapeJsonString k ++ "\":" ++ Json.stringify v ++ ","
        ++ Json.stringifyFields (f :: fs)

end

/-- A backend reply on the function-call WebSocket, restricted to the fields
the handler reads: `status`, `call_id`, `result`, `message`. Absent fields
are `none`. -/
structure BackendResponse where
  status : Option Json
  call_id : String
  result : Option Json
  message : Option Json

/-- The `response.status === "success"` test: strict equality against the
string `"success"`, false for absent, null, numeric or any other value. -/
def isSuccessStatus : Option Json → Bool
  | some (Json.str s) => s = "success"
  | _ => false

/-- A message this core sends back on the realtime data channel: either the
`conversation.item.create` envelope whose `item` is a
`function_call_output` (with `call_id`, and `output` or `error`), or the
bare `\x7btype: "response.create"\x7d` generation-continuation request.
An `output` of `none` means the field is absent from the serialized wire
message (a JS `undefined` property is dropped by `JSON.stringify`), and
likewise for `error`. -/
inductive RTOutMessage where
  | itemCreate (call_id : String) (output : Option String) (error : Option Json)
  | responseCreate
deriving Repr

/-- Modelled from the spec: `dataChannel.send` at feedback time. The
repository delegates the send to the platform RTCDataChannel, which is not
part of the repository; per the specification's feedback-emitter failure
semantics, when the realtime channel is closed the send is a no-op with an
error report. Returns the delivered message (if any) and whether an error
was reported. -/
def dcSend (ready : Bool) (m : RTOutMessage) : Option RTOutMessage × Bool :=
  if ready then (some m, false) else (none, true)

/-- The `functionCallSocket.onmessage` handler: on a backend reply, emit the
function-call output conversation item then a `response.create` request on
the realtime channel. `dcReady` is the realtime channel's readiness.
Returns the messages actually delivered on the realtime channel, in send
order, and whether a channel error was reported. -/
def onBackendMessage (dcReady : Bool) (resp : BackendResponse) : List RTOutMessage × Bool :=
  if isSuccessStatus resp.status then
    let s1 := dcSend dcReady
      (RTOutMessage.itemCreate resp.call_id (resp.result.map Json.stringify) none)
    let s2 := dcSend dcReady RTOutMessage.responseCreate
    (s1.1.toList ++ s2.1.toList, s1.2 || s2.2)
  else
    let s1 := dcSend dcReady
      (RTOutMessage.itemCreate resp.call_id none resp.message)
    let s2 := dcSend dcReady RTOutMessage.responseCreate
    (s1.1.toList ++ s2.1.toList, s1.2 || s2.2)

/-- The session-level state `endSession` touches: the microphone stream, the
two channels, the peer connection, the UI state string — and the
`pendingCalls` table, which is in scope at teardown time. -/
structure SessionState where
  localStreamActive : Bool
  dataChannelOpen : Bool
  functionCallSocketOpen : Bool
  peerConnectionOpen : Bool
  uiState : String
  pendingCalls : PendingTable

/-- The `endSession` teardown routine: stops the local stream's tracks,
closes the data channel, the function-call WebSocket and the peer
connection, and resets the UI to `"ready"`. It does not touch
`pendingCalls`. -/
def endSession (st : SessionState) : SessionState :=
  { st with
    localStreamActive := false
    dataChannelOpen := false
    functionCallSocketOpen := false
    peerConnectionOpen := false
    uiState := "ready" }

/-- A `response.output_item.added` event announcing a function call at slot
`s` with the given call id and function name. -/
def createMsg (s : Nat) (cid nm : String) : DCMessage :=
  { type := "response.output_item.added", output_index := some s,
    item := some { type := "function_call", call_id := cid, name := nm },
    delta := "", call_id := "", name := "" }

/-- A `response.function_call_arguments.delta` event carrying fragment `f`
for slot `s`. -/
def deltaMsg (s : Nat) (f : String) : DCMessage :=
  { type := "response.function_call_arguments.delta", output_index := some s,
    item := none, delta := f, call_id := "", name := "" }

/-- A `response.output_item.done` event finalizing a function call at slot
`s` with call id `cid` and name `nm`. -/
def doneMsg (s : Nat) (cid nm : String) : DCMessage :=
  { type := "response.output_item.done", output_index := some s,
    item := some { type := "function_call", call_id := cid, name := nm },
    delta := "", call_id := "", name := "" }

/-- Folding a list of argument fragments for slot `s` through the handler. -/
def foldDeltas (ready : Bool) (s : Nat) (frags : List String) (t : PendingTable) : PendingTable :=
  frags.foldl (fun tb f => (handleDCMessage ready (deltaMsg s f) tb).table) t

/-- A session state holding one pending call at slot 0 at teardown time. -/
def sampleTeardownState : SessionState :=
  { localStreamActive := true, dataChannelOpen := true, functionCallSocketOpen := true,
    peerConnectionOpen := true, uiState := "active",
    pendingCalls := fun i =>
      if i = 0 then some { call_id := "c1", name := "get_stock", arguments := "\x7b\x7d" }
      else none }

/-- Processing a `response.output_item.added` event always leaves the new
record, with empty argument buffer, at the event's slot. -/
theorem create_table_at (ready : Bool) (t : PendingTable) (s : Nat) (cid nm : String) :
    (handleDCMessage ready (createMsg s cid nm) t).table s
      = some { call_id := cid, name := nm, arguments := "" } := by
  simp [handleDCMessage, createMsg]

/-- Folding delta events for a tracked slot appends each fragment, in
order, to the record's argument buffer. -/
theorem foldDeltas_at (ready : Bool) (s : Nat) (frags : List String) :
    ∀ (t : PendingTable) (c : PendingCall), t s = some c →
      foldDeltas ready s frags t s
        = some { c with arguments := frags.foldl (fun a f => a ++ f) c.arguments } := by
  induction frags with
  | nil => intro t c h; exact h
  | cons f rest ih =>
      intro t c h
      have h1 : (handleDCMessage ready (deltaMsg s f) t).table s
          = some { c with arguments := c.arguments ++ f } := by
        simp [handleDCMessage, deltaMsg, h]
      exact ih _ _ h1

/-- Reduction of the handler on a `response.output_item.done` message whose
item is a function call: look up the slot, gate on the call id, and on a
match remove the entry and send through the backend channel. -/
theorem handleDC_done (ready : Bool) (msg : DCMessage) (t : PendingTable) (it : RTItem)
    (htype : msg.type = "response.output_item.done") (hitem : msg.item = some it)
    (hfc : it.type = "function_call") :
    handleDCMessage ready msg t =
      (match t (msg.output_index.getD 0) with
       | some call =>
         if call.call_id = it.call_id then
           { table := fun i => if i = msg.output_index.getD 0 then none else t i,
             dispatched := (wsSend ready call).1, errorLogged := (wsSend ready call).2 }
         else DCEffect.noop t
       | none => DCEffect.noop t) := by
  obtain ⟨ty, oi, itm, dl, ci, nm⟩ := msg
  dsimp only at htype hitem ⊢
  subst htype
  subst hitem
  simp [handleDCMessage, hfc]

/-- A `response.output_item.done` message whose slot has no table entry
dispatches nothing. -/
theorem handleDC_done_absent (ready : Bool) (msg : DCMessage) (t : PendingTable)
    (htype : msg.type = "response.output_item.done")
    (hnone : t (msg.output_index.getD 0) = none) :
    (handleDCMessage ready msg t).dispatched = none := by
  obtain ⟨ty, oi, itm, dl, ci, nm⟩ := msg
  dsimp only at htype hnone ⊢
  subst htype
  cases itm with
  | none => rfl
  | some it =>
      by_cases hfc : it.type = "function_call"
      · simp [handleDCMessage, hfc, hnone, DCEffect.noop]
      · simp [handleDCMessage, hfc, DCEffect.noop]

/-- Claim C1: creating a pending call (empty argument buffer) and then
processing `N` argument-delta events for the same slot in arrival order
yields, at finalize, a dispatched call whose argument string is the plain
concatenation `f1 ++ f2 ++ ... ++ fN` of the fragments — no reordering, no
separator. -/
theorem C1_order_preserving_assembly (ready : Bool) (t : PendingTable) (s : Nat)
    (cid nm nm2 : String) (frags : List String) :
    (handleDCMessage true (doneMsg s cid nm2)
        (foldDeltas ready s frags
          ((handleDCMessage ready (createMsg s cid nm) t).table))).dispatched
      = some { call_id := cid, name := nm, arguments := String.join frags } := by
  have h2 : foldDeltas ready s frags ((handleDCMessage ready (createMsg s cid nm) t).table) s
      = some { call_id := cid, name := nm, arguments := String.join frags } := by
    have h := foldDeltas_at ready s frags _ _ (create_table_at ready t s cid nm)
    exact h
  rw [handleDC_done true (doneMsg s cid nm2) _
        { type := "function_call", call_id := cid, name := nm2 } rfl rfl rfl]
  have hidx : (doneMsg s cid nm2).output_index.getD 0 = s := rfl
  rw [hidx, h2]
  simp [wsSend]

/-- Claim C2: a finalize event (`response.output_item.done` with a
`function_call` item) whose `call_id` differs from the one stored when the
entry at that slot was created dispatches nothing to the backend channel,
even though the slot index matches an existing entry. -/
theorem C2_call_id_gate (ready : Bool) (msg : DCMessage) (t : PendingTable)
    (it : RTItem) (call : PendingCall)
    (htype : msg.type = "response.output_item.done")
    (hitem : msg.item = some it)
    (hfc : it.type = "function_call")
    (hcall : t (msg.output_index.getD 0) = some call)
    (hid : call.call_id ≠ it.call_id) :
    (handleDCMessage ready msg t).dispatched = none := by
  rw [handleDC_done ready msg t it htype hitem hfc, hcall]
  simp [hid, DCEffect.noop]

/-- Witness for C2: slot 0 holds call id `"c1"`, the finalize event carries
`"c2"`; nothing is dispatched. -/
theorem C2_call_id_gate_witness :
    (handleDCMessage true (doneMsg 0 "c2" "f")
        (fun i => if i = 0 then some { call_id := "c1", name := "f", arguments := "" }
                  else none)).dispatched = none :=
  C2_call_id_gate true (doneMsg 0 "c2" "f") _
    { type := "function_call", call_id := "c2", name := "f" }
    { call_id := "c1", name := "f", arguments := "" }
    rfl rfl rfl rfl (by decide)

/-- Claim C3: when a finalize event passes the call-id gate, the entry is
removed from the table regardless of whether the backend send succeeds
(`ready` arbitrary), and any second finalize event for the same slot with
no intervening create dispatches nothing. -/
theorem C3_no_double_dispatch (ready ready2 : Bool) (msg msg2 : DCMessage)
    (t : PendingTable) (it : RTItem) (call : PendingCall)
    (htype : msg.type = "response.output_item.done")
    (hitem : msg.item = some it)
    (hfc : it.type = "function_call")
    (hcall : t (msg.output_index.getD 0) = some call)
    (hid : call.call_id = it.call_id)
    (htype2 : msg2.type = "response.output_item.done")
    (hidx2 : msg2.output_index.getD 0 = msg.output_index.getD 0) :
    (handleDCMessage ready msg t).table (msg.output_index.getD 0) = none ∧
    (handleDCMessage ready2 msg2 ((handleDCMessage ready msg t).table)).dispatched = none := by
  have hstep : (handleDCMessage ready msg t).table (msg.output_index.getD 0) = none := by
    rw [handleDC_done ready msg t it htype hitem hfc, hcall]
    simp [hid]
  refine ⟨hstep, ?_⟩
  exact handleDC_done_absent ready2 msg2 _ htype2 (by rw [hidx2]; exact hstep)

/-- Witness for C3: finalize of the call at slot 0 dispatches and empties
the slot; the identical second finalize dispatches nothing. -/
theorem C3_no_double_dispatch_witness :
    (handleDCMessage true (doneMsg 0 "c1" "f")
        (fun i => if i = 0 then some { call_id := "c1", name := "f", arguments := "\x7b\x7d" }
                  else none)).table 0 = none ∧
    (handleDCMessage true (doneMsg 0 "c1" "f")
        ((handleDCMessage true (doneMsg 0 "c1" "f")
          (fun i => if i = 0 then some { call_id := "c1", name := "f", arguments := "\x7b\x7d" }
                    else none)).table)).dispatched = none :=
  C3_no_double_dispatch true true (doneMsg 0 "c1" "f") (doneMsg 0 "c1" "f") _
    { type := "function_call", call_id := "c1", name := "f" }
    { call_id := "c1", name := "f", arguments := "\x7b\x7d" }
    rfl rfl rfl rfl rfl rfl rfl

/-- Claim C6: when a finalize event passes the call-id gate but the backend
execution channel is not ready, the call is dropped — nothing is delivered
to the backend, the entry is not retained in the table — and an error is
reported to the operator-visible log. With no payload delivered, the
backend never produces a result, so no feedback ever reaches the model on
this path. -/
theorem C6_backend_channel_unavailable (msg : DCMessage) (t : PendingTable)
    (it : RTItem) (call : PendingCall)
    (htype : msg.type = "response.output_item.done")
    (hitem : msg.item = some it)
    (hfc : it.type = "function_call")
    (hcall : t (msg.output_index.getD 0) = some call)
    (hid : call.call_id = it.call_id) :
    (handleDCMessage false msg t).dispatched = none ∧
    (handleDCMessage false msg t).errorLogged = true ∧
    (handleDCMessage false msg t).table (msg.output_index.getD 0) = none := by
  rw [handleDC_done false msg t it htype hitem hfc, hcall]
  simp [hid, wsSend]

/-- Witness for C6: a matching finalize for slot 0 with the backend channel
closed delivers nothing, reports an error, and empties the slot. -/
theorem C6_backend_channel_unavailable_witness :
    (handleDCMessage false (doneMsg 0 "c1" "f")
        (fun i => if i = 0 then some { call_id := "c1", name := "f", arguments := "\x7b\x7d" }
                  else none)).dispatched = none ∧
    (handleDCMessage false (doneMsg 0 "c1" "f")
        (fun i => if i = 0 then some { call_id := "c1", name := "f", arguments := "\x7b\x7d" }
                  else none)).errorLogged = true ∧
    (handleDCMessage false (doneMsg 0 "c1" "f")
        (fun i => if i = 0 then some { call_id := "c1", name := "f", arguments := "\x7b\x7d" }
                  else none)).table 0 = none :=
  C6_backend_channel_unavailable (doneMsg 0 "c1" "f") _
    { type := "function_call", call_id := "c1", name := "f" }
    { call_id := "c1", name := "f", arguments := "\x7b\x7d" }
    rfl rfl rfl rfl rfl

/-- Claim C8: an argument-delta event whose slot (the event's
`output_index`, defaulted to 0) has no entry in the assembly table is a
complete no-op: the table is unchanged, nothing is dispatched, and no error
is raised. -/
theorem C8_unknown_slot_fragment (ready : Bool) (msg : DCMessage) (t : PendingTable)
    (htype : msg.type = "response.function_call_arguments.delta")
    (hnone : t (msg.output_index.getD 0) = none) :
    handleDCMessage ready msg t = DCEffect.noop t := by
  obtain ⟨ty, oi, itm, dl, ci, nm⟩ := msg
  dsimp only at htype hnone ⊢
  subst htype
  simp [handleDCMessage, hnone]

/-- Witness for C8: a fragment for untracked slot 5 on the empty table. -/
theorem C8_unknown_slot_fragment_witness :
    handleDCMessage true (deltaMsg 5 "x") PendingTable.empty
      = DCEffect.noop PendingTable.empty :=
  C8_unknown_slot_fragment true (deltaMsg 5 "x") PendingTable.empty rfl rfl

/-- Claim C10: a `response.output_item.done` event whose item is absent or
whose item's type is not `"function_call"` leaves the assembly table
completely unchanged — an in-progress call stored at the same slot survives
— and dispatches nothing. -/
theorem C10_non_function_call_done (ready : Bool) (msg : DCMessage) (t : PendingTable)
    (htype : msg.type = "response.output_item.done")
    (hitem : ∀ it, msg.item = some it → it.type ≠ "function_call") :
    handleDCMessage ready msg t = DCEffect.noop t := by
  obtain ⟨ty, oi, itm, dl, ci, nm⟩ := msg
  dsimp only at htype hitem ⊢
  subst htype
  cases itm with
  | none => rfl
  | some it =>
      have h := hitem it rfl
      simp [handleDCMessage, h]

/-- Witness for C10: a done event for a `"message"` item at slot 0, while
slot 0 holds an in-progress call; the table (and the stored call) is left
intact and nothing is dispatched. -/
theorem C10_non_function_call_done_witness :
    handleDCMessage true
        { type := "response.output_item.done", output_index := some 0,
          item := some { type := "message", call_id := "", name := "" },
          delta := "", call_id := "", name := "" }
        (fun i => if i = 0 then some { call_id := "c1", name := "f", arguments := "\x7b" }
                  else none)
      = DCEffect.noop
          (fun i => if i = 0 then some { call_id := "c1", name := "f", arguments := "\x7b" }
                    else none) :=
  C10_non_function_call_done true _ _ rfl
    (fun it h => by cases h; decide)

/-- Claim C4: for every backend reply, the feedback emitter delivers, on an
open realtime channel, exactly two messages in order: first the
`conversation.item.create` whose `function_call_output` item carries the
reply's `call_id` with `output` the JSON-serialized result on success or
`error` the reply's message (and no `output`) otherwise, then exactly one
`response.create` continuation; no channel error is reported. -/
theorem C4_feedback_shape (resp : BackendResponse) :
    onBackendMessage true resp =
      ((if isSuccessStatus resp.status then
          [RTOutMessage.itemCreate resp.call_id (resp.result.map Json.stringify) none,
           RTOutMessage.responseCreate]
        else
          [RTOutMessage.itemCreate resp.call_id none resp.message,
           RTOutMessage.responseCreate]), false) := by
  by_cases h : isSuccessStatus resp.status <;>
    simp [onBackendMessage, dcSend, h]

/-- Claim C7: a backend reply arriving while the realtime channel is closed
results in no delivered feedback at all — both sends are no-ops — with an
error reported; the handler produces no other effect, so the result is
discarded. -/
theorem C7_closed_channel_feedback (resp : BackendResponse) :
    onBackendMessage false resp = ([], true) := by
  by_cases h : isSuccessStatus resp.status <;>
    simp [onBackendMessage, dcSend, h]

/-- Claim C9: every backend reply whose `status` is not exactly the JSON
string `"success"` — absent, null, a number, or any other value — takes the
failure path: the emitted item carries `error` equal to the reply's
`message` field (absent when the message is absent) and no `output`,
followed by exactly one `response.create`. -/
theorem C9_non_success_failure_path (resp : BackendResponse)
    (h : resp.status ≠ some (Json.str "success")) :
    onBackendMessage true resp =
      ([RTOutMessage.itemCreate resp.call_id none resp.message,
        RTOutMessage.responseCreate], false) := by
  have hb : isSuccessStatus resp.status = false := by
    cases hs : resp.status with
    | none => rfl
    | some j =>
        cases j with
        | str s =>
            by_cases hsuc : s = "success"
            · exact absurd (by rw [hs, hsuc]) h
            · simp [isSuccessStatus, hsuc]
        | null => rfl
        | bool b => rfl
        | num n => rfl
        | arr xs => rfl
        | obj fs => rfl
  simp [onBackendMessage, dcSend, hb]

/-- Witness for C9: a numeric status `5` with an absent message takes the
failure path, emitting an item with no `output` and an absent `error`
value, then one `response.create`. -/
theorem C9_non_success_failure_path_witness :
    onBackendMessage true
        { status := some (Json.num 5), call_id := "c9", result := none, message := none }
      = ([RTOutMessage.itemCreate "c9" none none, RTOutMessage.responseCreate], false) :=
  C9_non_success_failure_path
    { status := some (Json.num 5), call_id := "c9", result := none, message := none }
    (fun h => Json.noConfusion (Option.some.inj h))

/-- Claim C5: the claim states that teardown discards every entry of the
assembly table. The code's `endSession` closes the local stream, both
channels and the peer connection, but never touches `pendingCalls`: a call
pending at teardown time is still in the table after `endSession` runs. -/
theorem C5_teardown_retains_pending_call :
    (endSession sampleTeardownState).dataChannelOpen = false ∧
    (endSession sampleTeardownState).functionCallSocketOpen = false ∧
    (endSession sampleTeardownState).pendingCalls 0
      = some { call_id := "c1", name := "get_stock", arguments := "\x7b\x7d" } :=
  ⟨rfl, rfl, rfl⟩

end PharmacyAgent
